import Mathlib

/-!
Verification development for the `tiation-active-directory-setup` repository
(`src/daemon.py`, `src/web_ui.py`, `src/cli.py`).

The repository's core is a health-monitoring daemon that periodically queries a
container runtime for labeled workloads, assembles a JSON health snapshot, and
writes it to a status file; a CLI command and a small HTTP server read that
file back.  This file gives a shallow embedding of those operations:

* a `Json` value type modelling the parsed contents of the status file;
* `serve_status` / `serve_logs` modelling the HTTP handlers of
  `web_ui.py` (`ADSetupWebHandler.serve_status`, `serve_logs`);
* `cli_status` modelling the `status` subcommand of `cli.py`;
* `monitor_forests`, `perform_health_check`, `cleanup_logs`, `runLoop` and
  `daemonRun` modelling the daemon cycle of `daemon.py` (`ADSetupDaemon`);
* a tiny file-system-operation trace model for the status-file write, used to
  analyse the atomicity of the persist step.

External effects (the container runtime, the clock, signal delivery, success
of the file write) are supplied as explicit inputs per cycle (`CycleEnv`), and
the observable effects of a cycle (snapshot writes, sleeps, error logs) are
returned as an explicit `Action` trace.
-/

namespace ADSetup

/-- JSON values as produced by Python's `json.load`: the status file's parsed
contents.  Object fields keep insertion order, as Python dicts do; `json.load`
yields objects with pairwise-distinct keys. -/
inductive Json where
  | null
  | bool (b : Bool)
  | num (n : Int)
  | str (s : String)
  | arr (elems : List Json)
  | obj (fields : List (String × Json))
deriving Repr

/-- Python `dict.get(k)` on a parsed JSON object: the value of the first field
named `k`, if any. -/
def jlookup (fields : List (String × Json)) (k : String) : Option Json :=
  (fields.find? (fun p => p.1 == k)).map (fun p => p.2)

/-- Python `len()` on a JSON value: defined for dicts, lists and strings,
a `TypeError` (modelled as `none`) otherwise. -/
def jlen : Json → Option Nat
  | .obj fields => some fields.length
  | .arr elems => some elems.length
  | .str s => some s.length
  | _ => none

/-- Python truthiness of a JSON value (`None`, `False`, `0`, `""`, `[]`, and
the empty dict are falsy). -/
def jTruthy : Json → Bool
  | .null => false
  | .bool b => b
  | .num n => n != 0
  | .str s => s != ""
  | .arr elems => !elems.isEmpty
  | .obj fields => !fields.isEmpty

/-- Python `str()` of a JSON value as interpolated into the CLI's f-strings.
Scalar renderings are exact; container renderings are abbreviated (their text
never matters to the properties below). -/
def pyStr : Json → String
  | .null => "None"
  | .bool true => "True"
  | .bool false => "False"
  | .num n => toString n
  | .str s => s
  | .arr _ => "[...]"
  | .obj _ => "\x7b...\x7d"

/-- What a reader finds at the Status Store path (`~/.ad-setup/status.json`):
the file is absent, or present but unreadable/unparsable (`open`/`json.load`
raises, with the exception's message), or present with parsed contents. -/
inductive StoreState where
  | absent
  | unreadable (msg : String)
  | doc (j : Json)

/-- The `response_data` dict assembled by `web_ui.py`'s `serve_status`; its
four keys, in insertion order, are `daemon`, `docker`, `forest_count`,
`forests`. -/
structure StatusResponse where
  daemon : Json
  docker : Json
  forest_count : Nat
  forests : Json
deriving Repr

/-- The initial `response_data` literal of `serve_status` (web_ui.py lines
206–211). -/
def defaultStatusResponse : StatusResponse :=
  { daemon := .bool false, docker := .bool false, forest_count := 0, forests := .obj [] }

/-- Serialization of the response dict by `json.dumps`, keys in insertion
order. -/
def StatusResponse.render (r : StatusResponse) : Json :=
  .obj [("daemon", r.daemon), ("docker", r.docker),
        ("forest_count", .num r.forest_count), ("forests", r.forests)]

/-- `ADSetupWebHandler.serve_status` (web_ui.py lines 202–227): build the
default response; when the status file exists, try to overwrite `daemon`
(with `status.get('daemon')`, no default), `docker` (default `False`),
`forests` (default the empty dict) and `forest_count` (`len` of the forests
value); any exception while reading is caught and logged, leaving the fields
assigned so far; the reply is always HTTP 200.  A non-dict document raises
`AttributeError` at the first `.get`, leaving all defaults; a forests value
without `len` raises `TypeError` after the first three fields were
assigned. -/
def serve_status (st : StoreState) : Nat × StatusResponse :=
  match st with
  | .absent => (200, defaultStatusResponse)
  | .unreadable _ => (200, defaultStatusResponse)
  | .doc j =>
    match j with
    | .obj fields =>
      let daemonV := (jlookup fields "daemon").getD .null
      let dockerV := (jlookup fields "docker").getD (.bool false)
      let forestsV := (jlookup fields "forests").getD (.obj [])
      match jlen forestsV with
      | some n =>
          (200, { daemon := daemonV, docker := dockerV, forest_count := n, forests := forestsV })
      | none =>
          (200, { daemon := daemonV, docker := dockerV, forest_count := 0, forests := forestsV })
    | _ => (200, defaultStatusResponse)

/-- What the log-serving handler finds at the primary log file path: absent,
unreadable, or a list of lines as Python `readlines` returns them (each line
keeping its terminator). -/
inductive LogFileState where
  | absent
  | unreadable (msg : String)
  | fileLines (ls : List String)

/-- Python `l[-n:]`: the last `n` elements of a list (all of them when the
list is shorter). -/
def takeLast (n : Nat) (l : List String) : List String :=
  l.drop (l.length - n)

/-- `ADSetupWebHandler.serve_logs` (web_ui.py lines 229–250): `logs` starts as
the placeholder `"No logs available"`; when the log file exists its last 50
lines are joined, a read error replaces the text with the exception message;
the reply is always HTTP 200 with a JSON object holding the single key
`logs`. -/
def serve_logs (lf : LogFileState) : Nat × Json :=
  match lf with
  | .absent => (200, .obj [("logs", .str "No logs available")])
  | .unreadable msg => (200, .obj [("logs", .str ("Error reading logs: " ++ msg))])
  | .fileLines ls => (200, .obj [("logs", .str (String.join (takeLast 50 ls)))])

/-- The two lines the CLI's `except` branch prints when reading or rendering
the status file raises (cli.py lines 134–136). -/
def errorReadingLines (msg : String) : List String :=
  ["Error reading status: " ++ msg,
   "Daemon may not be running. Start with: launchctl start com.ad-setup.enterprise"]

/-- Rendering of one forest entry by the CLI's forest loop (cli.py lines
126–130).  `none` models an exception escaping to the `except` branch: slicing
`container_id[:12]` requires a string, and `.get` requires a dict. -/
def renderForest (name : String) (info : Json) : Option (List String) :=
  match info with
  | .obj ifs =>
    match (jlookup ifs "container_id").getD (.str "Unknown") with
    | .str cid =>
        some ["\n   Forest: " ++ name,
              "     Container ID: " ++ cid.take 12,
              "     Status: " ++ pyStr ((jlookup ifs "status").getD (.str "Unknown")),
              "     Health: " ++ pyStr ((jlookup ifs "health").getD (.str "Unknown"))]
    | _ => none
  | _ => none

/-- Rendering of the forests section (cli.py lines 122–132): `len(forests)` in
the header raises for values without `len`; a falsy forests value prints the
"No forests" line; otherwise iterating `.items()` requires a dict. -/
def renderForests (forestsV : Json) : Option (List String) :=
  (jlen forestsV).bind (fun n =>
    let header := "\n🌲 Active Forests: " ++ toString n
    if jTruthy forestsV then
      match forestsV with
      | .obj ffs =>
          (ffs.mapM (fun p => renderForest p.1 p.2)).map
            (fun lss => header :: lss.flatten)
      | _ => none
    else some [header, "   No forests currently deployed."])

/-- The body of the CLI `status` command's `try` block once the file parsed
(cli.py lines 109–132).  `none` models an exception escaping to `except`: the
document must be a dict, and `daemon_info.get` requires `status.get('daemon',
{})` to be a dict (a present non-dict `daemon` value, e.g. `null`, raises). -/
def cliDocBody (j : Json) : Option (List String) :=
  match j with
  | .obj fields =>
    match (jlookup fields "daemon").getD (.obj []) with
    | .obj dfs =>
        (renderForests ((jlookup fields "forests").getD (.obj []))).map
          (fun forestLines =>
            ["🔧 Daemon Status:",
             "   PID: " ++ pyStr ((jlookup dfs "pid").getD (.str "Unknown")),
             "   Uptime: " ++ pyStr ((jlookup dfs "uptime").getD (.num 0)) ++ " seconds",
             "   Health Checks: " ++ pyStr ((jlookup dfs "health_checks").getD (.num 0)),
             "   Last Check: " ++ pyStr ((jlookup fields "timestamp").getD (.str "Unknown")),
             "\n🐳 Docker Status:",
             "   " ++ (if jTruthy ((jlookup fields "docker").getD (.bool false))
                       then "✅ Running" else "❌ Not Running")]
            ++ forestLines)
    | _ => none
  | _ => none

/-- The `status` subcommand of cli.py (lines 94–143), as the list of lines it
prints: a header, then either the parsed-status rendering, the `except`
branch's error lines, or — when the status file is absent — the "No status
information available" guidance.  The function is total: no input makes it
raise. -/
def cli_status (st : StoreState) : List String :=
  ["📊 AD Forest Status", String.mk (List.replicate 60 (Char.ofNat 61))] ++
  match st with
  | .absent =>
      ["❌ No status information available.",
       "The daemon may not be running.",
       "\nTo start the daemon:",
       "  $ launchctl start com.ad-setup.enterprise",
       "\nTo check daemon logs:",
       "  $ ad-setup logs --errors"]
  | .unreadable msg => errorReadingLines msg
  | .doc j =>
      match cliDocBody j with
      | some ls => ls
      | none => errorReadingLines "exception while rendering status"

/-! ## The daemon (`daemon.py`, class `ADSetupDaemon`) -/

/-- One entry of the daemon's `self.forests` dict, as assembled by
`monitor_forests` (daemon.py lines 107–112). -/
structure ForestRecord where
  container_id : String
  status : String
  started : String
  health : String
deriving Repr, DecidableEq

/-- The `daemon` sub-object of the health snapshot (daemon.py lines
128–132). -/
structure DaemonRecord where
  uptime : Nat
  pid : Nat
  health_checks : Nat
deriving Repr, DecidableEq

/-- The `health_status` document `perform_health_check` writes to
`~/.ad-setup/status.json` (daemon.py lines 124–133). -/
structure HealthSnapshot where
  timestamp : String
  docker : Bool
  forests : List (String × ForestRecord)
  daemon : DaemonRecord
deriving Repr, DecidableEq

/-- The mutable fields of `ADSetupDaemon` that the cycle functions touch:
the stop flag `self.running`, the forests dict `self.forests`, and the
`self.metrics` counters, plus the process id and the configured check
interval (both fixed for the daemon's life). -/
structure DaemonState where
  running : Bool
  forests : List (String × ForestRecord)
  forests_monitored : Nat
  uptime : Nat
  health_checks : Nat
  lastCheck : Option String
  pid : Nat
  interval : Nat
deriving Repr, DecidableEq

/-- `ADSetupDaemon.__init__` (daemon.py lines 44–54): empty forests dict and
zeroed metrics; `pid` is the process id, `interval` the configured
`general.health_check_interval`. -/
def initState (pid interval : Nat) : DaemonState :=
  { running := false, forests := [], forests_monitored := 0, uptime := 0,
    health_checks := 0, lastCheck := none, pid := pid, interval := interval }

/-- A container returned by the runtime query
`client.containers.list(filters={"label": "ad-setup.forest"})`: its id, its
lifecycle status, its start time, and its optional `ad-setup.forest.name`
label. -/
structure Container where
  id : String
  status : String
  startedAt : String
  forestLabel : Option String
deriving Repr, DecidableEq

/-- The dict entry `monitor_forests` builds for one container (daemon.py lines
106–112): key from the `ad-setup.forest.name` label defaulting to
`"unknown"`; `health` is `"healthy"` exactly when the container status is
`"running"`, else `"unhealthy"`. -/
def forestEntry (c : Container) : String × ForestRecord :=
  (c.forestLabel.getD "unknown",
   { container_id := c.id, status := c.status, started := c.startedAt,
     health := if c.status = "running" then "healthy" else "unhealthy" })

/-- Python dict assignment `m[k] = v`: replace the value at an existing key in
place, else append the new key. -/
def dictInsert (m : List (String × ForestRecord)) (k : String) (v : ForestRecord) :
    List (String × ForestRecord) :=
  if m.any (fun p => p.1 == k) then
    m.map (fun p => if p.1 == k then (k, v) else p)
  else m ++ [(k, v)]

/-- `ADSetupDaemon.monitor_forests` (daemon.py lines 93–118): on a successful
runtime query, reset `self.forests` to the entries built from the listed
containers and set the `forests_monitored` metric to the dict's size; any
exception from the query (`docker.from_env`, `containers.list`) is caught and
logged, leaving the whole state — in particular the previous `self.forests` —
unchanged. -/
def monitor_forests (s : DaemonState) (q : Except String (List Container)) : DaemonState :=
  match q with
  | .ok containers =>
      let fs := containers.foldl
        (fun m c => dictInsert m (forestEntry c).1 (forestEntry c).2) []
      { s with forests := fs, forests_monitored := fs.length }
  | .error _ => s

/-- `ADSetupDaemon.perform_health_check` (daemon.py lines 120–149): assemble
the snapshot from the current timestamp, the Docker liveness probe's result,
the current `self.forests`, and the daemon metrics as they stand *before* any
increment; then write it to the status file, and only after a successful write
increment `health_checks` and stamp `last_check`.  `writeOk = false` models
`json.dump`/`open` raising: the exception propagates to the caller (`none`)
with the metrics not yet incremented. -/
def perform_health_check (s : DaemonState) (dockerOk : Bool) (ts : String)
    (writeOk : Bool) : DaemonState × Option HealthSnapshot :=
  let snap : HealthSnapshot :=
    { timestamp := ts, docker := dockerOk, forests := s.forests,
      daemon := { uptime := s.uptime, pid := s.pid, health_checks := s.health_checks } }
  if writeOk then
    ({ s with health_checks := s.health_checks + 1, lastCheck := some ts }, some snap)
  else (s, none)

/-- The abstract state of the daemon's log directory: the primary log file and
its `.old` backup, each characterized by its byte size (`stat().st_size`) and
an abstract content identity (so that replacing versus appending is
observable). -/
structure LogFileData where
  size : Nat
  content : Nat
deriving Repr, DecidableEq

/-- The log directory as `cleanup_logs` sees it: `ad-setup.log` and
`ad-setup.log.old`, each possibly absent. -/
structure LogFs where
  log : Option LogFileData
  old : Option LogFileData
deriving Repr, DecidableEq

/-- `ADSetupDaemon.cleanup_logs` (daemon.py lines 151–169): when the primary
log file exists and its size strictly exceeds `1024 * 1024` bytes, delete any
existing `.old` backup and rename the log file onto the backup path; otherwise
leave everything untouched. -/
def cleanup_logs (fs : LogFs) : LogFs :=
  match fs.log with
  | some f =>
      if f.size > 1024 * 1024 then { log := none, old := some f }
      else fs
  | none => fs

/-- The per-cycle external inputs of the daemon loop: the runtime query's
outcome, the liveness probe's outcome, the wall-clock timestamp, the computed
uptime `int(time.time() - start_time)`, whether the status-file write
succeeds, and whether a termination signal arrives during this iteration
(flipping `self.running` via `signal_handler` before the next loop test). -/
structure CycleEnv where
  query : Except String (List Container)
  dockerOk : Bool
  timestamp : String
  uptimeNow : Nat
  writeOk : Bool
  signal : Bool
deriving Repr

/-- Observable effects of the daemon loop, in order of occurrence. -/
inductive Action where
  | wrote (snap : HealthSnapshot)
  | cleanupLogs
  | sleepSec (n : Nat)
  | errorLogged
deriving Repr, DecidableEq

/-- The body of one `while self.running` iteration (daemon.py lines 190–208):
update the uptime metric, run `monitor_forests` (which never raises) and
`perform_health_check`; when the latter's file write raises, the exception is
caught by the loop's `except`, logged, and followed by `time.sleep(10)`;
otherwise the snapshot is written, logs are cleaned up when the incremented
`health_checks` is a multiple of 100, and the loop sleeps for the configured
interval. -/
def loopIter (s : DaemonState) (e : CycleEnv) : DaemonState × List Action :=
  let s1 := { s with uptime := e.uptimeNow }
  let s2 := monitor_forests s1 e.query
  let r := perform_health_check s2 e.dockerOk e.timestamp e.writeOk
  match r.2 with
  | some snap =>
      (r.1, [Action.wrote snap]
            ++ (if r.1.health_checks % 100 == 0 then [Action.cleanupLogs] else [])
            ++ [Action.sleepSec r.1.interval])
  | none => (r.1, [Action.errorLogged, Action.sleepSec 10])

/-- The signal-handler step the loop applies after an iteration
(`signal_handler`, daemon.py lines 77–80): a termination signal delivered
during the iteration clears `self.running`. -/
def sigStep (s : DaemonState) (e : CycleEnv) : DaemonState :=
  if e.signal then { s with running := false } else s

/-- The daemon's `while self.running` loop (daemon.py lines 189–208), driven
by a finite list of per-iteration environments (an exhausted list models a
still-running daemon whose future inputs are not yet determined).  A signal
during an iteration clears `running`, so the next loop test exits without
touching the remaining environments. -/
def runLoop (s : DaemonState) : List CycleEnv → DaemonState × List Action
  | [] => (s, [])
  | e :: rest =>
      if s.running then
        let (s1, acts) := loopIter s e
        let (s3, acts2) := runLoop (sigStep s1 e) rest
        (s3, acts ++ acts2)
      else (s, [])

/-- `ADSetupDaemon.run` (daemon.py lines 171–210): set `running`, then — as
the initial checks, before the timed loop — call `perform_health_check` first
and `monitor_forests` second, then enter the loop.  The initial
`perform_health_check` is outside any `try`: if its file write raises, the
exception escapes `run` (an unrecoverable startup failure, modelled as
`none`). -/
def daemonRun (s0 : DaemonState) (init : CycleEnv) (envs : List CycleEnv) :
    Option (DaemonState × List Action) :=
  let s1 := { s0 with running := true }
  match perform_health_check s1 init.dockerOk init.timestamp init.writeOk with
  | (_, none) => none
  | (s2, some snap) =>
      let s3 := monitor_forests s2 init.query
      let (s5, acts) := runLoop (sigStep s3 init) envs
      some (s5, Action.wrote snap :: acts)

/-- The snapshots a trace of actions persisted, in order. -/
def writtenSnaps (acts : List Action) : List HealthSnapshot :=
  acts.filterMap (fun a => match a with | .wrote snap => some snap | _ => none)

/-- The sleeps a trace of actions performed, in order. -/
def sleepCount (acts : List Action) : Nat :=
  acts.countP (fun a => match a with | .sleepSec _ => true | _ => false)

/-! ## File-system trace model of the status-file persist

`perform_health_check` persists the snapshot with `open(status_file, 'w')`
followed by `json.dump` (daemon.py lines 139–140).  To analyse what a
concurrent reader of the file can observe, the write path is refined into
elementary file-system operations on the status path and a hypothetical
temporary path. -/

/-- Elementary file-system operations on the Status Store: truncating open of
the status path (Python's mode `'w'`), appending data to it, writing a
temporary file, and renaming the temporary file onto the status path. -/
inductive FsOp where
  | openTrunc
  | writeData (d : String)
  | writeTempData (d : String)
  | renameTemp
deriving Repr, DecidableEq

/-- Contents of the status path and of the temporary path. -/
structure FsState where
  status : Option String
  temp : Option String
deriving Repr, DecidableEq

/-- Effect of one elementary operation. -/
def applyFsOp (fs : FsState) : FsOp → FsState
  | .openTrunc => { fs with status := some "" }
  | .writeData d => { fs with status := some ((fs.status.getD "") ++ d) }
  | .writeTempData d => { fs with temp := some d }
  | .renameTemp => { status := fs.temp, temp := none }

/-- Every file-system state along a sequence of operations, the initial one
included: what a reader interleaved with the writer can observe. -/
def fsStates (fs : FsState) : List FsOp → List FsState
  | [] => [fs]
  | op :: ops => fs :: fsStates (applyFsOp fs op) ops

/-- The contents of the status path along a sequence of operations. -/
def observableStatus (fs : FsState) (ops : List FsOp) : List (Option String) :=
  (fsStates fs ops).map (fun st => st.status)

/-- The operations `perform_health_check` actually issues against the file
system (daemon.py lines 139–140): a truncating open of the status path, then
the serialized document — no temporary file and no rename. -/
def persistOps (doc : String) : List FsOp :=
  [.openTrunc, .writeData doc]

/-! ## Concrete sample data (used to evaluate the definitions) -/

/-- A sample running container labelled as the forest `corp.example.com`. -/
def cEx : Container :=
  { id := "abc123def4567890", status := "running",
    startedAt := "2024-01-01T00:00:00Z", forestLabel := some "corp.example.com" }

/-- Sample startup-cycle inputs: the runtime query discovers `cEx`, the
liveness probe succeeds, the status-file write succeeds, no signal. -/
def envInitEx : CycleEnv :=
  { query := .ok [cEx], dockerOk := true, timestamp := "t0", uptimeNow := 0,
    writeOk := true, signal := false }

/-- Sample loop iteration 1: the query again discovers `cEx`. -/
def env1Ex : CycleEnv :=
  { query := .ok [cEx], dockerOk := true, timestamp := "t1", uptimeNow := 5,
    writeOk := true, signal := false }

/-- Sample loop iteration 2: the runtime is unreachable (query and liveness
probe both fail), the status-file write succeeds. -/
def env2Ex : CycleEnv :=
  { query := .error "docker daemon unreachable", dockerOk := false,
    timestamp := "t2", uptimeNow := 10, writeOk := true, signal := false }

/-- Sample loop iteration whose status-file write raises. -/
def envWriteFailEx : CycleEnv :=
  { query := .error "runtime down", dockerOk := false, timestamp := "t9",
    uptimeNow := 3, writeOk := false, signal := false }

end ADSetup

namespace ADSetup

/-! ## Helper lemmas -/

/-- Characterization of `serve_status` on a parsed JSON object: always
HTTP 200, and the `daemon`, `docker` and `forests` fields of the response are
the file's values (with the source's defaults), whatever the forests value's
`len` behaviour. -/
theorem serve_status_doc_obj (fields : List (String × Json)) :
    (serve_status (.doc (.obj fields))).1 = 200
    ∧ (serve_status (.doc (.obj fields))).2.daemon = (jlookup fields "daemon").getD .null
    ∧ (serve_status (.doc (.obj fields))).2.docker = (jlookup fields "docker").getD (.bool false)
    ∧ (serve_status (.doc (.obj fields))).2.forests = (jlookup fields "forests").getD (.obj []) := by
  unfold serve_status
  cases h : jlen ((jlookup fields "forests").getD (.obj [])) <;> simp [h]

/-- Properties closed under Python dict assignment: if every entry of the dict
satisfies `P` and the assigned pair does too, every entry of the updated dict
satisfies `P`. -/
theorem dictInsert_mem_imp (P : String × ForestRecord → Prop)
    (m : List (String × ForestRecord)) (k : String) (v : ForestRecord)
    (hm : ∀ p ∈ m, P p) (hv : P (k, v)) :
    ∀ p ∈ dictInsert m k v, P p := by
  intro p hp
  unfold dictInsert at hp
  split at hp
  · obtain ⟨q, hq, hpq⟩ := List.mem_map.mp hp
    by_cases h : q.1 == k
    · rw [if_pos h] at hpq
      exact hpq ▸ hv
    · rw [if_neg h] at hpq
      exact hpq ▸ hm q hq
  · rcases List.mem_append.mp hp with h | h
    · exact hm p h
    · rw [List.mem_singleton.mp h]
      exact hv

/-- Properties of the entries of the forests dict `monitor_forests` folds up:
if every container's entry satisfies `P`, so does every entry of the result of
folding from a dict whose entries satisfy `P`. -/
theorem foldl_entries_imp (P : String × ForestRecord → Prop) :
    ∀ (cs : List Container) (m : List (String × ForestRecord)),
      (∀ p ∈ m, P p) → (∀ c ∈ cs, P (forestEntry c)) →
      ∀ p ∈ cs.foldl (fun m c => dictInsert m (forestEntry c).1 (forestEntry c).2) m, P p := by
  intro cs
  induction cs with
  | nil => intro m hm _ p hp; exact hm p hp
  | cons c cs ih =>
      intro m hm hc p hp
      refine ih _ (dictInsert_mem_imp P m _ _ hm ?_) (fun c2 hc2 => hc c2 (by simp [hc2])) p hp
      exact hc c (by simp)

/-! ## Claim theorems -/

/-- Claim C6: when the Status Store file is absent, `GET /api/status` replies
HTTP 200 with exactly the JSON object
`{"daemon": false, "docker": false, "forest_count": 0, "forests": {}}`, and
the CLI `status` command prints the "No status information available"
guidance; both readers treat absence as a normal condition (both model
functions return normally; nothing is raised and no error status is
produced). -/
theorem absent_store_handled_gracefully :
    serve_status .absent =
      (200, { daemon := .bool false, docker := .bool false,
              forest_count := 0, forests := .obj [] })
    ∧ (serve_status .absent).2.render =
      Json.obj [("daemon", .bool false), ("docker", .bool false),
                ("forest_count", .num 0), ("forests", .obj [])]
    ∧ "❌ No status information available." ∈ cli_status .absent := by
  exact ⟨rfl, rfl, by decide⟩

/-- Claim C9: `GET /api/logs` always replies HTTP 200 with a JSON object
holding the single key `logs`; when the log file is absent the value is the
placeholder `"No logs available"`, and when it is readable the value joins
exactly the last `min 50 n` of its `n` lines (a suffix of the file). -/
theorem serve_logs_tail_spec (lf : LogFileState) :
    (serve_logs lf).1 = 200
    ∧ (serve_logs .absent).2 = Json.obj [("logs", .str "No logs available")]
    ∧ (∀ ls : List String,
        (serve_logs (.fileLines ls)).2
          = Json.obj [("logs", .str (String.join (takeLast 50 ls)))]
        ∧ (takeLast 50 ls).length = min 50 ls.length
        ∧ ls.take (ls.length - 50) ++ takeLast 50 ls = ls) := by
  refine ⟨?_, rfl, fun ls => ⟨rfl, ?_, ?_⟩⟩
  · cases lf <;> rfl
  · simp [takeLast]
    omega
  · exact List.take_append_drop _ ls

end ADSetup

namespace ADSetup

/-- Claim C10: when the Status Store exists and parses as a JSON object, the
`daemon` key of the `/api/status` response is the file's `daemon` value copied
verbatim — `null` when the key is missing — not the boolean `false`; the
boolean `false` appears only for an absent or unreadable store (for a file
whose `daemon` value is a Daemon Record object or missing, the response's
`daemon` is never `false`). -/
theorem serve_status_daemon_verbatim (fields : List (String × Json)) :
    (serve_status (.doc (.obj fields))).2.daemon = (jlookup fields "daemon").getD .null
    ∧ (serve_status .absent).2.daemon = .bool false
    ∧ (∀ msg, (serve_status (.unreadable msg)).2.daemon = .bool false)
    ∧ (∀ dfs, jlookup fields "daemon" = some (.obj dfs) →
        (serve_status (.doc (.obj fields))).2.daemon = .obj dfs
        ∧ ¬ (serve_status (.doc (.obj fields))).2.daemon = .bool false)
    ∧ (jlookup fields "daemon" = none →
        (serve_status (.doc (.obj fields))).2.daemon = .null
        ∧ ¬ (serve_status (.doc (.obj fields))).2.daemon = .bool false) := by
  have h := (serve_status_doc_obj fields).2.1
  refine ⟨h, rfl, fun _ => rfl, fun dfs hd => ⟨?_, ?_⟩, fun hd => ⟨?_, ?_⟩⟩
  · rw [h, hd]; rfl
  · rw [h, hd]; simp
  · rw [h, hd]; rfl
  · rw [h, hd]; simp

/-- Claim C10 witness: a concrete store whose `daemon` value is a Daemon
Record object is copied verbatim into the response. -/
theorem serve_status_daemon_verbatim_witness :
    (serve_status (.doc (.obj [("daemon", .obj [("pid", .num 41)]), ("docker", .bool true)]))).2.daemon
      = .obj [("pid", .num 41)] := by
  exact ((serve_status_daemon_verbatim
    [("daemon", .obj [("pid", .num 41)]), ("docker", .bool true)]).2.2.2.1
    [("pid", Json.num 41)] rfl).1

/-- Claim C7: every forest record assembled by `monitor_forests` carries
`health = "healthy"` exactly when its container status is `"running"` and
`"unhealthy"` otherwise; and for every parsable Status Store whose `forests`
value is a mapping, `/api/status` reports `forest_count` equal to the number
of entries of that mapping. -/
theorem forest_health_and_count :
    (∀ (s : DaemonState) (cs : List Container) (nm : String) (r : ForestRecord),
        (nm, r) ∈ (monitor_forests s (.ok cs)).forests →
          r.health = (if r.status = "running" then "healthy" else "unhealthy"))
    ∧ (∀ (fields ffs : List (String × Json)),
        jlookup fields "forests" = some (.obj ffs) →
          (serve_status (.doc (.obj fields))).2.forest_count = ffs.length) := by
  constructor
  · intro s cs nm r hmem
    have : ∀ p ∈ (monitor_forests s (.ok cs)).forests,
        (fun p : String × ForestRecord =>
          p.2.health = (if p.2.status = "running" then "healthy" else "unhealthy")) p := by
      simp only [monitor_forests]
      exact foldl_entries_imp _ cs [] (by simp) (fun c _ => rfl)
    exact this (nm, r) hmem
  · intro fields ffs h
    simp [serve_status, h, jlen]

/-- Claim C7 witness (end-to-end scenario 2): one running container labelled
`corp.example.com` yields a record with `health = "healthy"`, and a store with
one forest entry yields `forest_count = 1`. -/
theorem forest_health_and_count_witness :
    ((monitor_forests (initState 41 60) (.ok [cEx])).forests.map
        (fun p => (p.1, p.2.health)) = [("corp.example.com", "healthy")])
    ∧ (serve_status (.doc (.obj
        [("forests", .obj [("corp.example.com", .obj [("status", .str "running")])])]))).2.forest_count
      = 1 := by
  have h1 := forest_health_and_count.1 (initState 41 60) [cEx] "corp.example.com"
    (forestEntry cEx).2 (by decide)
  have h2 := forest_health_and_count.2
    [("forests", .obj [("corp.example.com", .obj [("status", .str "running")])])]
    [("corp.example.com", .obj [("status", .str "running")])] rfl
  exact ⟨by decide, by simpa using h2⟩

end ADSetup

namespace ADSetup

/-- Claim C5 counterexample: a log file of exactly 1 MiB (1,048,576 bytes =
`1024 * 1024`) is NOT rotated by `cleanup_logs` — the directory is left
untouched and the primary log file stays in place — although the claim's
"at or over 1 MiB" boundary demands rotation for it. -/
theorem cleanup_logs_boundary_cex :
    cleanup_logs { log := some ⟨1048576, 7⟩, old := some ⟨100, 3⟩ }
      = { log := some ⟨1048576, 7⟩, old := some ⟨100, 3⟩ }
    ∧ (1048576 : Nat) ≥ 1024 * 1024
    ∧ (cleanup_logs { log := some ⟨1048576, 7⟩, old := some ⟨100, 3⟩ }).log ≠ none := by
  refine ⟨rfl, by norm_num, by decide⟩

/-- Claim C5 (amended): when log housekeeping runs, the primary log file is
renamed to its `.old` backup — the pre-existing backup being replaced
wholesale, not appended to — if and only if its size strictly exceeds
1 MiB; a file of exactly 1 MiB or less is left untouched. -/
theorem cleanup_logs_threshold (fs : LogFs) (f : LogFileData) (h : fs.log = some f) :
    ((cleanup_logs fs).log = none ↔ 1024 * 1024 < f.size)
    ∧ (1024 * 1024 < f.size → cleanup_logs fs = { log := none, old := some f })
    ∧ (f.size ≤ 1024 * 1024 → cleanup_logs fs = fs) := by
  unfold cleanup_logs
  rw [h]
  by_cases hs : 1024 * 1024 < f.size
  · simp [hs]
  · simp [hs, h]

/-- Claim C5 witness: a 2,097,152-byte log file with a pre-existing backup is
rotated, the old backup being replaced by the rotated file. -/
theorem cleanup_logs_threshold_witness :
    cleanup_logs { log := some ⟨2097152, 5⟩, old := some ⟨100, 3⟩ }
      = { log := none, old := some ⟨2097152, 5⟩ } := by
  exact (cleanup_logs_threshold _ ⟨2097152, 5⟩ rfl).2.1 (by norm_num)

/-- Claim C1: evaluation of the persist step's file-system trace.  The
operations `perform_health_check` issues (truncating open, then write — no
temporary file, no rename) expose, between the prior complete document
`"A"` and the new complete document `"B"`, an intermediate state in which the
status file is empty: a concurrent reader can observe a document that is
neither the prior snapshot nor the new one, contradicting the required
atomic-replace semantics. -/
theorem persist_not_atomic_trace :
    observableStatus { status := some "A", temp := none } (persistOps "B")
      = [some "A", some "", some "B"]
    ∧ some "" ∈ observableStatus { status := some "A", temp := none } (persistOps "B")
    ∧ ("" : String) ≠ "A"
    ∧ ("" : String) ≠ "B" := by
  refine ⟨by decide, by decide, by decide, by decide⟩

end ADSetup

namespace ADSetup

/-- `monitor_forests` touches only the forests dict and the
`forests_monitored` metric: the stop flag and the remaining metrics are
preserved on every query outcome. -/
theorem monitor_forests_preserves (s : DaemonState) (q : Except String (List Container)) :
    (monitor_forests s q).running = s.running
    ∧ (monitor_forests s q).health_checks = s.health_checks
    ∧ (monitor_forests s q).uptime = s.uptime
    ∧ (monitor_forests s q).pid = s.pid
    ∧ (monitor_forests s q).interval = s.interval
    ∧ (monitor_forests s q).lastCheck = s.lastCheck := by
  cases q <;> simp [monitor_forests]

/-- Characterization of one loop iteration whose status-file write succeeds:
`health_checks` is incremented once, the stop flag / pid / interval are
untouched, exactly the one assembled snapshot is written — carrying the
pre-increment counter — and the iteration ends in exactly one sleep. -/
theorem loopIter_ok (s : DaemonState) (e : CycleEnv) (he : e.writeOk = true) :
    (loopIter s e).1.health_checks = s.health_checks + 1
    ∧ (loopIter s e).1.running = s.running
    ∧ (loopIter s e).1.pid = s.pid
    ∧ (loopIter s e).1.interval = s.interval
    ∧ (loopIter s e).1.forests
        = (monitor_forests { s with uptime := e.uptimeNow } e.query).forests
    ∧ writtenSnaps (loopIter s e).2
        = [{ timestamp := e.timestamp, docker := e.dockerOk,
             forests := (monitor_forests { s with uptime := e.uptimeNow } e.query).forests,
             daemon := { uptime := e.uptimeNow, pid := s.pid,
                         health_checks := s.health_checks } }]
    ∧ sleepCount (loopIter s e).2 = 1 := by
  obtain ⟨hp1, hp2, hp3, hp4, hp5, hp6⟩ :=
    monitor_forests_preserves { s with uptime := e.uptimeNow } e.query
  simp only [loopIter, perform_health_check, he, if_true]
  refine ⟨by simp [hp2], by simp [hp1], by simp [hp4], by simp [hp5], by simp, ?_, ?_⟩
  · cases hc : (monitor_forests { s with uptime := e.uptimeNow } e.query).health_checks + 1 % 100 == 0 <;>
      simp [writtenSnaps, hp2, hp3, hp4]
  · cases hc : ((monitor_forests { s with uptime := e.uptimeNow } e.query).health_checks + 1) % 100 == 0 <;>
      simp [sleepCount, hc]

/-- Every loop iteration — whether or not its body raises — preserves the
stop flag and ends in exactly one sleep. -/
theorem loopIter_any (s : DaemonState) (e : CycleEnv) :
    (loopIter s e).1.running = s.running
    ∧ sleepCount (loopIter s e).2 = 1 := by
  obtain ⟨hp1, hp2, hp3, hp4, hp5, hp6⟩ :=
    monitor_forests_preserves { s with uptime := e.uptimeNow } e.query
  cases he : e.writeOk
  · simp [loopIter, perform_health_check, he, sleepCount, hp1]
  · simp only [loopIter, perform_health_check, he, if_true]
    refine ⟨by simp [hp1], ?_⟩
    cases hc : ((monitor_forests { s with uptime := e.uptimeNow } e.query).health_checks + 1) % 100 == 0 <;>
      simp [sleepCount, hc]

/-- A loop whose stop flag is already cleared performs nothing. -/
theorem runLoop_stopped (s : DaemonState) (h : s.running = false) :
    ∀ envs, runLoop s envs = (s, []) := by
  intro envs
  cases envs with
  | nil => rfl
  | cons e rest => simp [runLoop, h]

/-- Unfolding of one running loop step. -/
theorem runLoop_cons_running (s : DaemonState) (e : CycleEnv) (rest : List CycleEnv)
    (h : s.running = true) :
    runLoop s (e :: rest)
      = ((runLoop (sigStep (loopIter s e).1 e) rest).1,
         (loopIter s e).2 ++ (runLoop (sigStep (loopIter s e).1 e) rest).2) := by
  simp [runLoop, h]

/-- A running, signal-free loop whose writes all succeed persists one snapshot
per iteration, the k-th carrying `health_checks` counter value
`s.health_checks + k`; the counter afterwards has grown by exactly the number
of iterations, and the loop is still running. -/
theorem runLoop_counts (envs : List CycleEnv) :
    ∀ s : DaemonState, s.running = true →
      (∀ e ∈ envs, e.writeOk = true ∧ e.signal = false) →
      (writtenSnaps (runLoop s envs).2).map (fun snap => snap.daemon.health_checks)
          = List.range' s.health_checks envs.length
      ∧ (runLoop s envs).1.health_checks = s.health_checks + envs.length
      ∧ (runLoop s envs).1.running = true := by
  induction envs with
  | nil =>
      intro s hr _
      simp [runLoop, writtenSnaps, hr]
  | cons e rest ih =>
      intro s hr hall
      have he := hall e (by simp)
      have hit := loopIter_ok s e he.1
      have hsig : sigStep (loopIter s e).1 e = (loopIter s e).1 := by
        simp [sigStep, he.2]
      have hrun1 : (loopIter s e).1.running = true := by rw [hit.2.1, hr]
      obtain ⟨hmap, hhc, hrun⟩ :=
        ih (loopIter s e).1 hrun1 (fun e2 h2 => hall e2 (by simp [h2]))
      rw [runLoop_cons_running s e rest hr, hsig]
      refine ⟨?_, ?_, hrun⟩
      · rw [writtenSnaps, List.filterMap_append, List.map_append]
        rw [← writtenSnaps, ← writtenSnaps, hit.2.2.2.2.2.1, hmap, hit.1]
        simp [List.range'_succ]
      · rw [hhc, hit.1]
        simp only [List.length_cons]
        omega

/-- A running loop that receives no signal is still running after any number
of iterations, having slept once per iteration — errors included, no
iteration terminates it. -/
theorem runLoop_no_signal (envs : List CycleEnv) :
    ∀ s : DaemonState, s.running = true → (∀ e ∈ envs, e.signal = false) →
      (runLoop s envs).1.running = true
      ∧ sleepCount (runLoop s envs).2 = envs.length := by
  induction envs with
  | nil =>
      intro s hr _
      simp [runLoop, sleepCount, hr]
  | cons e rest ih =>
      intro s hr hall
      have hit := loopIter_any s e
      have hsig : sigStep (loopIter s e).1 e = (loopIter s e).1 := by
        simp [sigStep, hall e (by simp)]
      have hrun1 : (loopIter s e).1.running = true := by rw [hit.1, hr]
      obtain ⟨hrun, hcount⟩ := ih (loopIter s e).1 hrun1 (fun e2 h2 => hall e2 (by simp [h2]))
      rw [runLoop_cons_running s e rest hr, hsig]
      refine ⟨hrun, ?_⟩
      rw [sleepCount, List.countP_append, ← sleepCount, ← sleepCount, hit.2, hcount]
      simp only [List.length_cons]
      omega

end ADSetup

namespace ADSetup

/-- Claim C2 counterexample: startup discovers the forest `corp.example.com`
(cycle 2's snapshot shows 1 forest); in cycle 3 the runtime query fails, yet
the snapshot persisted by that cycle still carries the stale forest (1 entry,
not the empty mapping the claim requires), with `docker` `false` and
`health_checks` still incremented. -/
theorem monitor_failure_stale_cex :
    (daemonRun (initState 41 60) envInitEx [env1Ex, env2Ex]).map
        (fun r => (writtenSnaps r.2).map
          (fun snap => (snap.docker, snap.forests.length, snap.daemon.health_checks)))
      = some [(true, 0, 0), (true, 1, 1), (false, 1, 2)]
    ∧ env2Ex.query = Except.error "docker daemon unreachable"
    ∧ (1 : Nat) ≠ 0 :=
  ⟨by decide, rfl, by decide⟩

/-- Claim C2 (amended): a failed runtime query is caught and leaves the whole
daemon state — in particular the previously discovered forests dict —
unchanged; the cycle still persists exactly one snapshot (with the stale
forests, the probe's `docker` value and the pre-increment counter) and still
increments `health_checks`; the persisted `forests` is empty only when the
retained dict was already empty. -/
theorem monitor_failure_behavior (s : DaemonState) (msg : String) (dockerOk : Bool)
    (ts : String) (up : Nat) (sg : Bool) :
    monitor_forests s (.error msg) = s
    ∧ writtenSnaps (loopIter s ⟨.error msg, dockerOk, ts, up, true, sg⟩).2
        = [{ timestamp := ts, docker := dockerOk, forests := s.forests,
             daemon := { uptime := up, pid := s.pid, health_checks := s.health_checks } }]
    ∧ (loopIter s ⟨.error msg, dockerOk, ts, up, true, sg⟩).1.health_checks
        = s.health_checks + 1 := by
  have hit := loopIter_ok s ⟨.error msg, dockerOk, ts, up, true, sg⟩ rfl
  refine ⟨rfl, ?_, hit.1⟩
  rw [hit.2.2.2.2.2.1]
  rfl

/-- Claim C3 counterexample: the startup query discovers one labelled
workload, but the first persisted snapshot has an empty forests mapping —
startup writes the snapshot before querying the runtime. -/
theorem startup_order_cex :
    (daemonRun (initState 41 60) envInitEx []).map
        (fun r => (writtenSnaps r.2).map (fun snap => snap.forests.length))
      = some [0]
    ∧ (monitor_forests (initState 41 60) envInitEx.query).forests.length = 1
    ∧ (0 : Nat) ≠ 1 :=
  ⟨by decide, by decide, by decide⟩

/-- Claim C3 (amended): on startup the daemon performs the snapshot write
first and the runtime query second, so the first persisted snapshot always
has an empty `forests` mapping (and `health_checks` 0, uptime 0), whatever
the immediate query discovers. -/
theorem startup_write_precedes_query (pid itv : Nat) (init : CycleEnv)
    (envs : List CycleEnv) (h1 : init.writeOk = true) :
    (daemonRun (initState pid itv) init envs).map
        (fun r => (writtenSnaps r.2).head?)
      = some (some { timestamp := init.timestamp, docker := init.dockerOk, forests := [],
                     daemon := { uptime := 0, pid := pid, health_checks := 0 } }) := by
  simp [daemonRun, perform_health_check, h1, initState, writtenSnaps]

/-- Claim C3 witness: at a concrete startup environment whose query discovers
a running forest, the first persisted snapshot still has empty forests. -/
theorem startup_write_precedes_query_witness :
    (daemonRun (initState 41 60) envInitEx [env1Ex]).map
        (fun r => (writtenSnaps r.2).head?)
      = some (some { timestamp := "t0", docker := true, forests := [],
                     daemon := { uptime := 0, pid := 41, health_checks := 0 } }) :=
  startup_write_precedes_query 41 60 envInitEx [env1Ex] rfl

/-- Claim C4 counterexample: after exactly one completed cycle the daemon has
persisted exactly one snapshot, and that snapshot's `daemon.health_checks` is
0, not 1 — the persisted value lags the number of completed cycles by one,
because the counter is incremented only after the write. -/
theorem health_checks_offbyone_cex :
    (daemonRun (initState 41 60) envInitEx []).map
        (fun r => ((writtenSnaps r.2).map (fun snap => snap.daemon.health_checks),
                   (writtenSnaps r.2).length))
      = some ([0], 1)
    ∧ (0 : Nat) ≠ 1 :=
  ⟨by decide, by decide⟩

/-- Claim C4 (amended): while the daemon lives, `health_checks` increases by
exactly 1 per completed cycle and never resets, and the snapshot persisted by
the N-th completed cycle carries `daemon.health_checks = N − 1` — the number
of cycles completed before that snapshot's write (the counter is incremented
after the write): over a run of `n` loop cycles after the startup cycle, the
persisted counter values are exactly `0, 1, …, n` in order, and the in-memory
counter ends at `n + 1`. -/
theorem health_checks_per_cycle (pid itv : Nat) (init : CycleEnv)
    (envs : List CycleEnv) (h1 : init.writeOk = true) (h2 : init.signal = false)
    (h3 : ∀ e ∈ envs, e.writeOk = true ∧ e.signal = false) :
    (daemonRun (initState pid itv) init envs).map
        (fun r => ((writtenSnaps r.2).map (fun snap => snap.daemon.health_checks),
                   r.1.health_checks))
      = some (List.range' 0 (envs.length + 1), envs.length + 1) := by
  have hpre := monitor_forests_preserves
    { running := true, forests := [], forests_monitored := 0, uptime := 0,
      health_checks := 1, lastCheck := some init.timestamp, pid := pid,
      interval := itv } init.query
  have hrun : (monitor_forests
      { running := true, forests := [], forests_monitored := 0, uptime := 0,
        health_checks := 1, lastCheck := some init.timestamp, pid := pid,
        interval := itv } init.query).running = true := hpre.1
  have hrl := runLoop_counts envs _ hrun h3
  rw [hpre.2.1] at hrl
  have hmap := hrl.1
  have hhc := hrl.2.1
  simp only [writtenSnaps] at hmap
  simp at hmap hhc
  rw [Nat.add_comm] at hhc
  simp only [daemonRun, perform_health_check, h1, if_true, initState, sigStep, h2,
    if_false, Bool.false_eq_true, ite_false]
  simp [writtenSnaps, hmap, hhc, List.range'_succ]

end ADSetup

namespace ADSetup

/-- Claim C4 witness: over the concrete startup cycle plus two loop cycles,
the persisted counter values are `0, 1, 2` and the in-memory counter ends
at 3. -/
theorem health_checks_per_cycle_witness :
    (daemonRun (initState 41 60) envInitEx [env1Ex, env2Ex]).map
        (fun r => ((writtenSnaps r.2).map (fun snap => snap.daemon.health_checks),
                   r.1.health_checks))
      = some (List.range' 0 3, 3) :=
  health_checks_per_cycle 41 60 envInitEx [env1Ex, env2Ex] rfl rfl (by decide)

/-- Claim C8: an iteration whose body raises (here: the status-file write
fails) is caught at the loop level — the iteration's trace is exactly an
error log followed by a 10-second sleep, and the loop continues with the
remaining iterations; a running, signal-free loop is still running after any
number of iterations (one sleep each, errors included), so no unexpected
error terminates it; a termination signal ends the loop right after the
current iteration, the remaining environments untouched; and a failure of the
initial startup write escapes `run` (unrecoverable startup failure). -/
theorem loop_error_policy (s : DaemonState) (e : CycleEnv) (rest envs : List CycleEnv)
    (hr : s.running = true) :
    (e.writeOk = false →
      runLoop s (e :: rest)
        = ((runLoop (sigStep (monitor_forests { s with uptime := e.uptimeNow } e.query) e) rest).1,
           Action.errorLogged :: Action.sleepSec 10 ::
             (runLoop (sigStep (monitor_forests { s with uptime := e.uptimeNow } e.query) e) rest).2))
    ∧ ((∀ e2 ∈ envs, e2.signal = false) →
        (runLoop s envs).1.running = true ∧ sleepCount (runLoop s envs).2 = envs.length)
    ∧ (e.signal = true →
        (runLoop s (e :: rest)).1.running = false
        ∧ (runLoop s (e :: rest)).2 = (loopIter s e).2)
    ∧ (∀ (s0 : DaemonState) (init : CycleEnv) (el : List CycleEnv),
        init.writeOk = false → daemonRun s0 init el = none) := by
  refine ⟨?_, runLoop_no_signal envs s hr, ?_, ?_⟩
  · intro hw
    have hiter : loopIter s e
        = (monitor_forests { s with uptime := e.uptimeNow } e.query,
           [Action.errorLogged, Action.sleepSec 10]) := by
      simp [loopIter, perform_health_check, hw]
    rw [runLoop_cons_running s e rest hr, hiter]
    simp
  · intro hsg
    have hstop : (sigStep (loopIter s e).1 e).running = false := by
      simp [sigStep, hsg]
    have h2 := runLoop_stopped (sigStep (loopIter s e).1 e) hstop rest
    rw [runLoop_cons_running s e rest hr, h2]
    exact ⟨hstop, by simp⟩
  · intro s0 init el hw
    simp [daemonRun, perform_health_check, hw]

/-- Claim C8 witness: a concrete running state with one write-failing
iteration and no signal: the loop is still running afterwards and slept
exactly once. -/
theorem loop_error_policy_witness :
    (runLoop { initState 41 60 with running := true } [envWriteFailEx]).1.running = true
    ∧ sleepCount (runLoop { initState 41 60 with running := true } [envWriteFailEx]).2 = 1 :=
  (loop_error_policy { initState 41 60 with running := true } envWriteFailEx []
    [envWriteFailEx] rfl).2.1 (by decide)

end ADSetup
